import Mathlib

/-!
Shallow embedding of the GPU resource and compute-to-display pipeline of the
fractal-generator repository, together with proofs about it.

Embedded source units:
* `src/src/MemoryManager.cpp` — memory-type selection (`findMemoryType`),
  buffer creation (`createBufferExplicit` / `createBuffer`), upload/download
  (`uploadBufferData` / `downloadBufferData`), destruction
  (`removeBuffer` / `clearBuffers`) and image-layout transitions
  (`transitionImageLayout`).
* `src/unnamed/part_004` — `ComputePipeline::calculateDispatchInfo` and
  `ComputePipeline::dispatchFractalCompute`.
* `src/unnamed/part_002` — the `mandelbrot.comp` compute shader
  (`mandelbrotIterations`, `juliaIterations`, `burningShipIterations`,
  `calculateFractalIterations`, and the pixel-to-fractal-space mapping of
  `main`).

Machine integers are modelled as `Nat` with explicit reduction modulo `2^32`
(`uint32_t`) or `2^64` (`VkDeviceSize`) at the operations where C++ unsigned
wraparound can occur.  The GLSL `float` arithmetic of the compute shader is
modelled with exact rational arithmetic (`ℚ`).  Vulkan device behaviour that
is external to the repository (success or failure of `vkCreateBuffer`,
`vkAllocateMemory`, `vkBindBufferMemory`, the device memory-type table, the
allocator-reported allocation size) is supplied by an explicit environment
record, and fallible operations return `Except`.
-/

namespace FractalGen

/-! ## Vulkan flag constants (numeric values from the Vulkan headers) -/

def VK_MEMORY_PROPERTY_DEVICE_LOCAL_BIT : Nat := 0x1
def VK_MEMORY_PROPERTY_HOST_VISIBLE_BIT : Nat := 0x2
def VK_MEMORY_PROPERTY_HOST_COHERENT_BIT : Nat := 0x4
def VK_MEMORY_PROPERTY_HOST_CACHED_BIT : Nat := 0x8

def VK_BUFFER_USAGE_TRANSFER_SRC_BIT : Nat := 0x1
def VK_BUFFER_USAGE_TRANSFER_DST_BIT : Nat := 0x2
def VK_BUFFER_USAGE_UNIFORM_BUFFER_BIT : Nat := 0x10
def VK_BUFFER_USAGE_STORAGE_BUFFER_BIT : Nat := 0x20
def VK_BUFFER_USAGE_INDEX_BUFFER_BIT : Nat := 0x40
def VK_BUFFER_USAGE_VERTEX_BUFFER_BIT : Nat := 0x80

def VK_ACCESS_SHADER_READ_BIT : Nat := 0x20
def VK_ACCESS_TRANSFER_WRITE_BIT : Nat := 0x1000

def VK_PIPELINE_STAGE_TOP_OF_PIPE_BIT : Nat := 0x1
def VK_PIPELINE_STAGE_FRAGMENT_SHADER_BIT : Nat := 0x80
def VK_PIPELINE_STAGE_TRANSFER_BIT : Nat := 0x1000

/-- `uint32_t` addition (wraps modulo `2^32`). -/
def u32add (a b : Nat) : Nat := (a + b) % 2 ^ 32

/-- `uint32_t` subtraction (wraps modulo `2^32`); operands are reduced first. -/
def u32sub (a b : Nat) : Nat := (a % 2 ^ 32 + (2 ^ 32 - b % 2 ^ 32)) % 2 ^ 32

/-- `uint64_t` (`VkDeviceSize`) addition (wraps modulo `2^64`). -/
def u64add (a b : Nat) : Nat := (a + b) % 2 ^ 64

/-- `uint64_t` (`VkDeviceSize`) subtraction (wraps modulo `2^64`). -/
def u64sub (a b : Nat) : Nat := (a % 2 ^ 64 + (2 ^ 64 - b % 2 ^ 64)) % 2 ^ 64

/-! ## MemoryManager::findMemoryType (MemoryManager.cpp lines 358-369)

The device-reported memory-type table is a list of property-flag masks,
indexed by memory-type index.  The C++ loop
`for (i = 0; i < memoryTypeCount; i++)` returns the first `i` with
`(typeFilter & (1 << i)) && (memoryTypes[i].propertyFlags & properties) == properties`,
and throws when the loop exhausts the table; the embedding returns
`Option Nat`, `none` standing for the thrown `runtime_error`. -/

/-- The loop condition of `findMemoryType` at index `i`: bit `i` of the type
filter is set, and the property flags of memory type `i` are a superset of
the required `properties` mask. -/
def suitableMemoryTypeB (memoryTypes : List Nat) (typeFilter properties i : Nat) : Bool :=
  typeFilter.testBit i && (memoryTypes.getD i 0 &&& properties == properties)

/-- The scanning loop of `findMemoryType`, starting at index `i` with
`fuel` indices left to examine. -/
def findMemoryTypeLoop (memoryTypes : List Nat) (typeFilter properties : Nat) :
    Nat → Nat → Option Nat
  | _, 0 => none
  | i, fuel + 1 =>
    if suitableMemoryTypeB memoryTypes typeFilter properties i then some i
    else findMemoryTypeLoop memoryTypes typeFilter properties (i + 1) fuel

/-- `MemoryManager::findMemoryType`: linear scan over the device memory-type
table from index 0; `none` models the thrown
`"Failed to find suitable memory type!"`. -/
def findMemoryType (memoryTypes : List Nat) (typeFilter properties : Nat) : Option Nat :=
  findMemoryTypeLoop memoryTypes typeFilter properties 0 memoryTypes.length

theorem findMemoryTypeLoop_some (memoryTypes : List Nat) (tf props : Nat) :
    ∀ fuel i r, findMemoryTypeLoop memoryTypes tf props i fuel = some r →
      i ≤ r ∧ r < i + fuel ∧ suitableMemoryTypeB memoryTypes tf props r = true ∧
        ∀ j, i ≤ j → j < r → suitableMemoryTypeB memoryTypes tf props j = false := by
  intro fuel
  induction fuel with
  | zero => intro i r h; simp [findMemoryTypeLoop] at h
  | succ n ih =>
    intro i r h
    rw [findMemoryTypeLoop] at h
    by_cases hc : suitableMemoryTypeB memoryTypes tf props i = true
    · simp [hc] at h
      subst h
      exact ⟨le_refl i, by omega, hc, fun j h1 h2 => absurd h1 (by omega)⟩
    · simp [hc] at h
      obtain ⟨h1, h2, h3, h4⟩ := ih (i + 1) r h
      refine ⟨by omega, by omega, h3, fun j hj1 hj2 => ?_⟩
      by_cases hji : j = i
      · subst hji; simpa using hc
      · exact h4 j (by omega) hj2

theorem findMemoryTypeLoop_none (memoryTypes : List Nat) (tf props : Nat) :
    ∀ fuel i, findMemoryTypeLoop memoryTypes tf props i fuel = none →
      ∀ j, i ≤ j → j < i + fuel → suitableMemoryTypeB memoryTypes tf props j = false := by
  intro fuel
  induction fuel with
  | zero => intro i _ j h1 h2; omega
  | succ n ih =>
    intro i h j h1 h2
    rw [findMemoryTypeLoop] at h
    by_cases hc : suitableMemoryTypeB memoryTypes tf props i = true
    · simp [hc] at h
    · simp [hc] at h
      by_cases hji : j = i
      · subst hji; simpa using hc
      · exact ih (i + 1) h j (by omega) (by omega)

/-! ## MemoryManager::transitionImageLayout (MemoryManager.cpp lines 559-599) -/

/-- The `VkImageLayout` values relevant to this program (the C++ function
receives an arbitrary layout; unlisted values behave like the listed
non-matching ones, all falling into the rejecting branch). -/
inductive VkImageLayout where
  | undefined
  | general
  | colorAttachmentOptimal
  | transferSrcOptimal
  | transferDstOptimal
  | shaderReadOnlyOptimal
  | presentSrc
  deriving DecidableEq, BEq

/-- The access-mask / pipeline-stage configuration that
`transitionImageLayout` writes into the `VkImageMemoryBarrier` and the
`vkCmdPipelineBarrier` call. -/
structure BarrierConfig where
  srcAccessMask : Nat
  dstAccessMask : Nat
  sourceStage : Nat
  destinationStage : Nat
  deriving DecidableEq, BEq

/-- `MemoryManager::transitionImageLayout`: the two recognised
`(oldLayout, newLayout)` pairs produce a barrier configuration; every other
pair throws `std::invalid_argument("Unsupported layout transition!")`,
modelled by `none`. -/
def transitionImageLayout (oldLayout newLayout : VkImageLayout) : Option BarrierConfig :=
  if oldLayout = VkImageLayout.undefined ∧ newLayout = VkImageLayout.transferDstOptimal then
    some { srcAccessMask := 0
           dstAccessMask := VK_ACCESS_TRANSFER_WRITE_BIT
           sourceStage := VK_PIPELINE_STAGE_TOP_OF_PIPE_BIT
           destinationStage := VK_PIPELINE_STAGE_TRANSFER_BIT }
  else if oldLayout = VkImageLayout.transferDstOptimal ∧
      newLayout = VkImageLayout.shaderReadOnlyOptimal then
    some { srcAccessMask := VK_ACCESS_TRANSFER_WRITE_BIT
           dstAccessMask := VK_ACCESS_SHADER_READ_BIT
           sourceStage := VK_PIPELINE_STAGE_TRANSFER_BIT
           destinationStage := VK_PIPELINE_STAGE_FRAGMENT_SHADER_BIT }
  else
    none

end FractalGen

namespace FractalGen

/-- Claim C1: `findMemoryType` returns the first (lowest) index whose bit is
set in the type filter and whose flags are a superset of the required flags;
if no index of the device table satisfies both conditions it fails (`none`)
rather than returning any index, so it never returns an index whose flags are
not a superset of the requested flags. -/
theorem C1_findMemoryType_first_suitable (ts : List Nat) (tf props : Nat) :
    (∀ r, findMemoryType ts tf props = some r →
      r < ts.length ∧ (tf.testBit r = true ∧ ts.getD r 0 &&& props = props) ∧
        ∀ j, j < r → ¬(tf.testBit j = true ∧ ts.getD j 0 &&& props = props)) ∧
    (findMemoryType ts tf props = none →
      ∀ j, j < ts.length → ¬(tf.testBit j = true ∧ ts.getD j 0 &&& props = props)) := by
  constructor
  · intro r h
    obtain ⟨h1, h2, h3, h4⟩ := findMemoryTypeLoop_some ts tf props ts.length 0 r h
    refine ⟨by omega, ?_, ?_⟩
    · have := h3
      simpa [suitableMemoryTypeB] using this
    · intro j hj hcontra
      have := h4 j (Nat.zero_le j) hj
      rw [suitableMemoryTypeB] at this
      simp only [hcontra.1, hcontra.2, Bool.true_and, beq_self_eq_true] at this
      exact absurd this (by decide)
  · intro h j hj hcontra
    have := findMemoryTypeLoop_none ts tf props ts.length 0 h j (Nat.zero_le j) (by omega)
    rw [suitableMemoryTypeB] at this
    simp only [hcontra.1, hcontra.2, Bool.true_and, beq_self_eq_true] at this
    exact absurd this (by decide)

/-- Witness for C1: on the table `[1, 2, 6]` with filter `6` (bits 1 and 2)
and required flags `2`, the scan returns index 1, which is suitable and
minimal. -/
theorem C1_witness :
    1 < ([1, 2, 6] : List Nat).length ∧
      (Nat.testBit 6 1 = true ∧ ([1, 2, 6] : List Nat).getD 1 0 &&& 2 = 2) ∧
      ∀ j, j < 1 → ¬(Nat.testBit 6 j = true ∧ ([1, 2, 6] : List Nat).getD j 0 &&& 2 = 2) :=
  (C1_findMemoryType_first_suitable [1, 2, 6] 6 2).1 1 rfl

/-- Claim C3: the image-layout transition accepts exactly the two pairs
undefined → transfer-destination and transfer-destination → shader-read-only
and rejects every other pair; in particular undefined → shader-read-only
directly is rejected, while each step of the two-step sequence succeeds. -/
theorem C3_transition_exactly_two_pairs :
    (∀ oldLayout newLayout,
      (transitionImageLayout oldLayout newLayout).isSome = true ↔
        ((oldLayout = VkImageLayout.undefined ∧
            newLayout = VkImageLayout.transferDstOptimal) ∨
         (oldLayout = VkImageLayout.transferDstOptimal ∧
            newLayout = VkImageLayout.shaderReadOnlyOptimal))) ∧
    transitionImageLayout VkImageLayout.undefined VkImageLayout.shaderReadOnlyOptimal = none ∧
    (transitionImageLayout VkImageLayout.undefined
        VkImageLayout.transferDstOptimal).isSome = true ∧
    (transitionImageLayout VkImageLayout.transferDstOptimal
        VkImageLayout.shaderReadOnlyOptimal).isSome = true := by
  refine ⟨?_, rfl, rfl, rfl⟩
  intro oldLayout newLayout
  cases oldLayout <;> cases newLayout <;> simp [transitionImageLayout]

end FractalGen

namespace FractalGen

/-! ## ComputePipeline::calculateDispatchInfo and dispatchFractalCompute
(src/unnamed/part_004 lines 391-403 and 198-229)

All four quantities are `uint32_t`; the C++ expression
`(imageWidth + workGroupSizeX - 1) / workGroupSizeX` performs the addition
and the subtraction in wrapping 32-bit unsigned arithmetic. -/

/-- `ComputeDispatchInfo` (MemoryManager.h lines 415-419). -/
structure ComputeDispatchInfo where
  groupCountX : Nat
  groupCountY : Nat
  groupCountZ : Nat
  deriving DecidableEq, BEq

/-- `ComputePipeline::calculateDispatchInfo`: round-up division computed in
wrapping `uint32_t` arithmetic. -/
def calculateDispatchInfo (imageWidth imageHeight workGroupSizeX workGroupSizeY : Nat) :
    ComputeDispatchInfo :=
  { groupCountX := u32sub (u32add imageWidth workGroupSizeX) 1 / workGroupSizeX
    groupCountY := u32sub (u32add imageHeight workGroupSizeY) 1 / workGroupSizeY
    groupCountZ := 1 }

/-- The `ComputePipeline` fields consulted by `dispatchFractalCompute`. -/
structure ComputePipelineState where
  fractalPipelineReady : Bool
  fractalImageWidth : Nat
  fractalImageHeight : Nat

/-- `ComputePipeline::dispatchFractalCompute`: a no-op (`none`) when the
pipeline is not ready; otherwise computes the dispatch info from the stored
image dimensions and records a `vkCmdDispatch` with those group counts
(`some`). -/
def dispatchFractalCompute (cp : ComputePipelineState)
    (workGroupSizeX workGroupSizeY : Nat) : Option ComputeDispatchInfo :=
  if cp.fractalPipelineReady then
    some (calculateDispatchInfo cp.fractalImageWidth cp.fractalImageHeight
      workGroupSizeX workGroupSizeY)
  else
    none

/-- The declaration `dispatchFractalCompute` in MemoryManager.h (lines
527-530) defaults both local work-group sizes to 16; this is the call made by
`VulkanApplication.cpp` line 434. -/
def dispatchFractalComputeDefault (cp : ComputePipelineState) : Option ComputeDispatchInfo :=
  dispatchFractalCompute cp 16 16

end FractalGen

namespace FractalGen

/-- Claim C2 fails as stated: for `width = 2^32 - 1` the `uint32_t` addition
`imageWidth + workGroupSizeX` wraps, so the recorded `groupCountX` is `0`
instead of the ceiling `ceil((2^32 - 1) / 16) = 268435456`. -/
theorem C2_counterexample :
    dispatchFractalComputeDefault
        { fractalPipelineReady := true
          fractalImageWidth := 4294967295
          fractalImageHeight := 1 } =
      some { groupCountX := 0, groupCountY := 1, groupCountZ := 1 } ∧
    (4294967295 + 16 - 1) / 16 = 268435456 ∧ (0 : Nat) ≠ 268435456 := by
  refine ⟨?_, by norm_num, by norm_num⟩
  decide

/-- Claim C2 amended: for every width and height with `0 < width`,
`width + 15 < 2^32`, `0 < height`, `height + 15 < 2^32`, dispatching on a
ready pipeline with the default 16x16 local work-group size records group
counts `groupsX = ceil(width/16)`, `groupsY = ceil(height/16)`, `groupsZ = 1`
(the group count is the least multiple-of-16 cover of the image). -/
theorem C2_dispatch_groups_ceiling (w h : Nat)
    (hw0 : 0 < w) (hw : w + 15 < 2 ^ 32) (hh0 : 0 < h) (hh : h + 15 < 2 ^ 32) :
    ∃ di, dispatchFractalComputeDefault
        { fractalPipelineReady := true, fractalImageWidth := w, fractalImageHeight := h } =
        some di ∧
      di.groupCountX = (w + 15) / 16 ∧ di.groupCountY = (h + 15) / 16 ∧
      di.groupCountZ = 1 ∧
      w ≤ 16 * di.groupCountX ∧ 16 * di.groupCountX < w + 16 ∧
      h ≤ 16 * di.groupCountY ∧ 16 * di.groupCountY < h + 16 := by
  refine ⟨_, rfl, ?_⟩
  have hx : u32sub (u32add w 16) 1 = w + 15 := by
    unfold u32add u32sub
    omega
  have hy : u32sub (u32add h 16) 1 = h + 15 := by
    unfold u32add u32sub
    omega
  simp only [calculateDispatchInfo, hx, hy]
  refine ⟨trivial, trivial, trivial, by omega, by omega, by omega, by omega⟩

/-- Witness for C2 (amended): the boundary widths 1, 16, 17 and the 800x600
configuration all receive their ceiling group counts. -/
theorem C2_witness :
    (∃ di, dispatchFractalComputeDefault
        { fractalPipelineReady := true, fractalImageWidth := 1, fractalImageHeight := 1 } =
        some di ∧ di.groupCountX = (1 + 15) / 16 ∧ di.groupCountY = (1 + 15) / 16 ∧
        di.groupCountZ = 1 ∧ 1 ≤ 16 * di.groupCountX ∧ 16 * di.groupCountX < 1 + 16 ∧
        1 ≤ 16 * di.groupCountY ∧ 16 * di.groupCountY < 1 + 16) ∧
    (∃ di, dispatchFractalComputeDefault
        { fractalPipelineReady := true, fractalImageWidth := 16, fractalImageHeight := 16 } =
        some di ∧ di.groupCountX = (16 + 15) / 16 ∧ di.groupCountY = (16 + 15) / 16 ∧
        di.groupCountZ = 1 ∧ 16 ≤ 16 * di.groupCountX ∧ 16 * di.groupCountX < 16 + 16 ∧
        16 ≤ 16 * di.groupCountY ∧ 16 * di.groupCountY < 16 + 16) ∧
    (∃ di, dispatchFractalComputeDefault
        { fractalPipelineReady := true, fractalImageWidth := 17, fractalImageHeight := 17 } =
        some di ∧ di.groupCountX = (17 + 15) / 16 ∧ di.groupCountY = (17 + 15) / 16 ∧
        di.groupCountZ = 1 ∧ 17 ≤ 16 * di.groupCountX ∧ 16 * di.groupCountX < 17 + 16 ∧
        17 ≤ 16 * di.groupCountY ∧ 16 * di.groupCountY < 17 + 16) ∧
    (∃ di, dispatchFractalComputeDefault
        { fractalPipelineReady := true, fractalImageWidth := 800, fractalImageHeight := 600 } =
        some di ∧ di.groupCountX = (800 + 15) / 16 ∧ di.groupCountY = (600 + 15) / 16 ∧
        di.groupCountZ = 1 ∧ 800 ≤ 16 * di.groupCountX ∧ 16 * di.groupCountX < 800 + 16 ∧
        600 ≤ 16 * di.groupCountY ∧ 16 * di.groupCountY < 600 + 16) :=
  ⟨C2_dispatch_groups_ceiling 1 1 (by decide) (by decide) (by decide) (by decide),
   C2_dispatch_groups_ceiling 16 16 (by decide) (by decide) (by decide) (by decide),
   C2_dispatch_groups_ceiling 17 17 (by decide) (by decide) (by decide) (by decide),
   C2_dispatch_groups_ceiling 800 600 (by decide) (by decide) (by decide) (by decide)⟩

end FractalGen

namespace FractalGen

/-! ## The mandelbrot.comp compute shader (src/unnamed/part_002)

The GLSL `float` arithmetic is modelled with exact rational arithmetic.  Each
iteration loop `for (uint i = 0; i < params.maxIterations; i++)` is embedded
with a fuel argument equal to the number of remaining loop rounds; when the
fuel is exhausted the loop has ended and the function returns
`params.maxIterations`.  The local variables `zx2 = zx * zx` and
`zy2 = zy * zy` of the loop bodies are substituted inline, and the `switch`
of `calculateFractalIterations` is written as an if-chain. -/

/-- The `FractalParameters` uniform block of `mandelbrot.comp` (binding 0). -/
structure ShaderParams where
  centerX : ℚ
  centerY : ℚ
  zoom : ℚ
  maxIterations : Nat
  imageWidth : Nat
  imageHeight : Nat
  colorScale : ℚ
  fractalType : Nat

/-- The loop of `mandelbrotIterations`: current `z = (zx, zy)`, loop counter
`i`, and remaining rounds `fuel`. -/
def mandelbrotLoop (cx cy : ℚ) (maxIterations : Nat) : ℚ → ℚ → Nat → Nat → Nat
  | _, _, _, 0 => maxIterations
  | zx, zy, i, fuel + 1 =>
    if zx * zx + zy * zy > 4 then i
    else mandelbrotLoop cx cy maxIterations
      (zx * zx - zy * zy + cx) (2 * zx * zy + cy) (i + 1) fuel

/-- `mandelbrotIterations(cx, cy)`: escape-time iteration of `z = z^2 + c`
from `z = 0` with escape radius 2 (squared test against 4). -/
def mandelbrotIterations (cx cy : ℚ) (maxIterations : Nat) : Nat :=
  mandelbrotLoop cx cy maxIterations 0 0 0 maxIterations

/-- The loop of `juliaIterations` (same update as Mandelbrot but with the
fixed constant `c = -0.7 + 0.27015i`). -/
def juliaLoop (maxIterations : Nat) : ℚ → ℚ → Nat → Nat → Nat
  | _, _, _, 0 => maxIterations
  | zx, zy, i, fuel + 1 =>
    if zx * zx + zy * zy > 4 then i
    else juliaLoop maxIterations
      (zx * zx - zy * zy + (-7/10)) (2 * zx * zy + 27015/100000) (i + 1) fuel

/-- `juliaIterations(zx0, zy0)`. -/
def juliaIterations (zx0 zy0 : ℚ) (maxIterations : Nat) : Nat :=
  juliaLoop maxIterations zx0 zy0 0 maxIterations

/-- The loop of `burningShipIterations`: `z = (|Re z| + i |Im z|)^2 + c`. -/
def burningShipLoop (cx cy : ℚ) (maxIterations : Nat) : ℚ → ℚ → Nat → Nat → Nat
  | _, _, _, 0 => maxIterations
  | zx, zy, i, fuel + 1 =>
    if zx * zx + zy * zy > 4 then i
    else burningShipLoop cx cy maxIterations
      (zx * zx - zy * zy + cx) (2 * |zx| * |zy| + cy) (i + 1) fuel

/-- `burningShipIterations(cx, cy)`. -/
def burningShipIterations (cx cy : ℚ) (maxIterations : Nat) : Nat :=
  burningShipLoop cx cy maxIterations 0 0 0 maxIterations

/-- `calculateFractalIterations(fx, fy)`: switch on `params.fractalType`
(0 = Mandelbrot, 1 = Julia, 2 = Burning Ship, default = Mandelbrot). -/
def calculateFractalIterations (params : ShaderParams) (fx fy : ℚ) : Nat :=
  if params.fractalType = 0 then mandelbrotIterations fx fy params.maxIterations
  else if params.fractalType = 1 then juliaIterations fx fy params.maxIterations
  else if params.fractalType = 2 then burningShipIterations fx fy params.maxIterations
  else mandelbrotIterations fx fy params.maxIterations

/-- The pixel-to-fractal-space mapping of the shader `main`: maps pixel
coordinates to the fractal coordinate system through the aspect ratio, the
zoom-derived fractal width `4.0 / zoom`, and the centred offsets. -/
def pixelToFractal (params : ShaderParams) (px py : Nat) : ℚ × ℚ :=
  (params.centerX +
     ((px : ℚ) / (params.imageWidth : ℚ) - 1/2) * (4 / params.zoom),
   params.centerY +
     ((py : ℚ) / (params.imageHeight : ℚ) - 1/2) *
       ((4 / params.zoom) / ((params.imageWidth : ℚ) / (params.imageHeight : ℚ))))

/-- The iteration count the shader `main` computes for pixel `(px, py)`:
`none` when the bounds check rejects the invocation, otherwise the result of
`calculateFractalIterations` at the mapped coordinates. -/
def shaderPixelIterations (params : ShaderParams) (px py : Nat) : Option Nat :=
  if px ≥ params.imageWidth ∨ py ≥ params.imageHeight then none
  else some (calculateFractalIterations params
    (pixelToFractal params px py).1 (pixelToFractal params px py).2)

/-- On the real axis with `c = -1/2`, the interval `[-1/2, 1/4]` is invariant
under `x ↦ x^2 - 1/2` and stays inside the escape radius, so the Mandelbrot
loop always runs to completion. -/
theorem mandelbrotLoop_half_in_set :
    ∀ fuel zx i maxIterations, -(1/2) ≤ zx → zx ≤ 1/4 →
      mandelbrotLoop (-(1/2)) 0 maxIterations zx 0 i fuel = maxIterations := by
  intro fuel
  induction fuel with
  | zero => intro zx i m _ _; rfl
  | succ n ih =>
    intro zx i m hlo hhi
    rw [mandelbrotLoop]
    have hcond : ¬(zx * zx + (0 : ℚ) * 0 > 4) := by nlinarith
    rw [if_neg hcond]
    rw [show (2 * zx * 0 + 0 : ℚ) = 0 by ring]
    exact ih (zx * zx - 0 * 0 + -(1/2)) (i + 1) m (by nlinarith) (by nlinarith)

/-- The far-corner point `(299/200, 299/200)` escapes on the second loop
test, so its iteration count is 1. -/
theorem mandelbrotIterations_corner :
    mandelbrotIterations (299/200) (299/200) 100 = 1 := by
  rw [mandelbrotIterations]
  show mandelbrotLoop (299/200) (299/200) 100 0 0 0 (Nat.succ 99) = 1
  rw [mandelbrotLoop, if_neg (by norm_num)]
  rw [show ((0 : ℚ) * 0 - 0 * 0 + 299/200 : ℚ) = 299/200 by ring,
    show ((2 : ℚ) * 0 * 0 + 299/200 : ℚ) = 299/200 by ring]
  show mandelbrotLoop (299/200) (299/200) 100 (299/200) (299/200) (0 + 1) (Nat.succ 98) = 1
  rw [mandelbrotLoop, if_pos (by norm_num)]

/-- Specialisation of the fractal-type switch: when `params.fractalType = 0`
the shader computes Mandelbrot iterations. -/
theorem calculateFractalIterations_mandelbrot (params : ShaderParams) (fx fy : ℚ)
    (h : params.fractalType = 0) :
    calculateFractalIterations params fx fy =
      mandelbrotIterations fx fy params.maxIterations := by
  rw [calculateFractalIterations, if_pos h]

/-- Claim C9: with width 800, height 600, maxIterations 100, center
`(-0.5, 0)`, zoom 1 and the Mandelbrot variant, the shader computes exactly
`maxIterations = 100` iterations at the image-centre pixel `(400, 300)` (the
point `-0.5` never escapes), and strictly fewer than 100 at the far-corner
pixel `(799, 599)` (the mapped point escapes immediately).  The shader float
arithmetic is modelled exactly over `ℚ`. -/
theorem C9_center_in_set_corner_escapes :
    shaderPixelIterations
        { centerX := -(1/2), centerY := 0, zoom := 1, maxIterations := 100,
          imageWidth := 800, imageHeight := 600, colorScale := 1,
          fractalType := 0 } 400 300 = some 100 ∧
    ∃ n, shaderPixelIterations
        { centerX := -(1/2), centerY := 0, zoom := 1, maxIterations := 100,
          imageWidth := 800, imageHeight := 600, colorScale := 1,
          fractalType := 0 } 799 599 = some n ∧ n < 100 := by
  constructor
  · have hmap1 : (pixelToFractal
        { centerX := -(1/2), centerY := 0, zoom := 1, maxIterations := 100,
          imageWidth := 800, imageHeight := 600, colorScale := 1,
          fractalType := 0 } 400 300).1 = -(1/2) := by
      rw [pixelToFractal]
      norm_num
    have hmap2 : (pixelToFractal
        { centerX := -(1/2), centerY := 0, zoom := 1, maxIterations := 100,
          imageWidth := 800, imageHeight := 600, colorScale := 1,
          fractalType := 0 } 400 300).2 = 0 := by
      rw [pixelToFractal]
      norm_num
    rw [shaderPixelIterations, hmap1, hmap2, if_neg (by norm_num),
      calculateFractalIterations_mandelbrot _ _ _ rfl]
    show some (mandelbrotIterations (-(1/2)) 0 100) = some 100
    rw [mandelbrotIterations,
      mandelbrotLoop_half_in_set 100 0 0 100 (by norm_num) (by norm_num)]
  · refine ⟨1, ?_, by norm_num⟩
    have hmap1 : (pixelToFractal
        { centerX := -(1/2), centerY := 0, zoom := 1, maxIterations := 100,
          imageWidth := 800, imageHeight := 600, colorScale := 1,
          fractalType := 0 } 799 599).1 = 299/200 := by
      rw [pixelToFractal]
      norm_num
    have hmap2 : (pixelToFractal
        { centerX := -(1/2), centerY := 0, zoom := 1, maxIterations := 100,
          imageWidth := 800, imageHeight := 600, colorScale := 1,
          fractalType := 0 } 799 599).2 = 299/200 := by
      rw [pixelToFractal]
      norm_num
    rw [shaderPixelIterations, hmap1, hmap2, if_neg (by norm_num),
      calculateFractalIterations_mandelbrot _ _ _ rfl]
    show some (mandelbrotIterations (299/200) (299/200) 100) = some 1
    rw [mandelbrotIterations_corner]

end FractalGen

namespace FractalGen

/-! ## MemoryManager buffer registry (MemoryManager.cpp lines 47-152, 299-341)

The registry is an association list keyed by buffer name
(`std::unordered_map` with unique keys).  Device interaction that is external
to the repository is supplied by a `VkEnv` record: the results of
`vkCreateBuffer`, `vkAllocateMemory` and `vkBindBufferMemory`, the buffer's
`memoryTypeBits` and allocator-reported `memRequirements.size`, and the
device memory-type table.  `MMState` additionally counts the live `VkBuffer`
and `VkDeviceMemory` handles so that resource leaks on failure paths are
observable; `nextHandle` supplies fresh handle identifiers.  `vkMapMemory`
on host-visible memory is modelled as succeeding. -/

/-- `BufferInfo` (MemoryManager.h lines 56-65); `mappedData` is the
is-non-null view of the mapped host pointer.  The `usage` and `location`
fields of the C++ struct are never written by `createBufferExplicit` and are
omitted. -/
structure BufferInfo where
  buffer : Nat
  memory : Nat
  size : Nat
  offset : Nat
  mappedData : Bool
  persistentlyMapped : Bool
  deriving DecidableEq, BEq

/-- `BufferUsage` (MemoryManager.h). -/
inductive BufferUsage where
  | vertexBuffer
  | indexBuffer
  | uniformBuffer
  | storageBuffer
  | stagingBuffer
  | fractalOutputBuffer
  | fractalParamsBuffer
  deriving DecidableEq, BEq

/-- `MemoryLocation` (MemoryManager.h). -/
inductive MemoryLocation where
  | gpuOnly
  | cpuToGpu
  | gpuToCpu
  | cpuGpuShared
  deriving DecidableEq, BEq

/-- `MemoryManager::bufferUsageToVulkanFlags` (MemoryManager.cpp 371-394). -/
def bufferUsageToVulkanFlags : BufferUsage → Nat
  | .vertexBuffer => VK_BUFFER_USAGE_VERTEX_BUFFER_BIT ||| VK_BUFFER_USAGE_TRANSFER_DST_BIT
  | .indexBuffer => VK_BUFFER_USAGE_INDEX_BUFFER_BIT ||| VK_BUFFER_USAGE_TRANSFER_DST_BIT
  | .uniformBuffer => VK_BUFFER_USAGE_UNIFORM_BUFFER_BIT ||| VK_BUFFER_USAGE_TRANSFER_DST_BIT
  | .storageBuffer => VK_BUFFER_USAGE_STORAGE_BUFFER_BIT |||
      VK_BUFFER_USAGE_TRANSFER_DST_BIT ||| VK_BUFFER_USAGE_TRANSFER_SRC_BIT
  | .stagingBuffer => VK_BUFFER_USAGE_TRANSFER_SRC_BIT
  | .fractalOutputBuffer => VK_BUFFER_USAGE_STORAGE_BUFFER_BIT |||
      VK_BUFFER_USAGE_TRANSFER_SRC_BIT
  | .fractalParamsBuffer => VK_BUFFER_USAGE_UNIFORM_BUFFER_BIT |||
      VK_BUFFER_USAGE_TRANSFER_DST_BIT

/-- `MemoryManager::memoryLocationToVulkanFlags` (MemoryManager.cpp 396-413). -/
def memoryLocationToVulkanFlags : MemoryLocation → Nat
  | .gpuOnly => VK_MEMORY_PROPERTY_DEVICE_LOCAL_BIT
  | .cpuToGpu => VK_MEMORY_PROPERTY_HOST_VISIBLE_BIT ||| VK_MEMORY_PROPERTY_HOST_COHERENT_BIT
  | .gpuToCpu => VK_MEMORY_PROPERTY_HOST_VISIBLE_BIT ||| VK_MEMORY_PROPERTY_HOST_CACHED_BIT
  | .cpuGpuShared => VK_MEMORY_PROPERTY_HOST_VISIBLE_BIT ||| VK_MEMORY_PROPERTY_HOST_COHERENT_BIT

/-- The environment of device responses consumed by one
`createBufferExplicit` call. -/
structure VkEnv where
  createBufferOk : Bool
  memoryTypeBits : Nat
  allocationSize : Nat
  allocOk : Bool
  bindOk : Bool
  memoryTypes : List Nat
  deriving DecidableEq, BEq

/-- The `MemoryManager` state: the name-keyed buffer registry,
`m_totalAllocatedMemory`, and the live-handle bookkeeping of the device
model. -/
structure MMState where
  buffers : List (String × BufferInfo)
  totalAllocatedMemory : Nat
  liveBufferHandles : Nat
  liveMemoryHandles : Nat
  nextHandle : Nat
  deriving DecidableEq, BEq

/-- The exceptions thrown by `createBufferExplicit`. -/
inductive MMError where
  | duplicateName (name : String)
  | createBufferFailed
  | noSuitableMemoryType
  | allocateMemoryFailed
  | bindBufferMemoryFailed
  deriving DecidableEq, BEq

/-- `MemoryManager::getBuffer` (MemoryManager.cpp 290-297). -/
def getBuffer (st : MMState) (name : String) : Option BufferInfo :=
  List.lookup name st.buffers

/-- `MemoryManager::createBufferExplicit` (MemoryManager.cpp 61-152).  The
result state is returned also on the throwing paths so that the effect of
each failure on live resources is visible.  When `findMemoryType` throws,
the exception propagates out of the `try` block (the `catch` only logs and
rethrows) without `vkDestroyBuffer` being called, so the `VkBuffer` created
just before stays live.  On `vkAllocateMemory` failure the buffer is
destroyed before throwing; on `vkBindBufferMemory` failure the memory is
freed and the buffer destroyed before throwing. -/
def createBufferExplicit (env : VkEnv) (st : MMState) (name : String) (size : Nat)
    (usageFlags memoryProperties : Nat) (persistentMap : Bool) :
    Except MMError BufferInfo × MMState :=
  if (getBuffer st name).isSome then
    (Except.error (MMError.duplicateName name), st)
  else if env.createBufferOk = false then
    (Except.error MMError.createBufferFailed, st)
  else
    let bufHandle := st.nextHandle
    let st1 : MMState := { st with liveBufferHandles := st.liveBufferHandles + 1,
                                   nextHandle := st.nextHandle + 1 }
    match findMemoryType env.memoryTypes env.memoryTypeBits memoryProperties with
    | none =>
      (Except.error MMError.noSuitableMemoryType, st1)
    | some _ =>
      if env.allocOk = false then
        (Except.error MMError.allocateMemoryFailed,
         { st1 with liveBufferHandles := st1.liveBufferHandles - 1 })
      else
        let memHandle := st1.nextHandle
        let st2 : MMState := { st1 with liveMemoryHandles := st1.liveMemoryHandles + 1,
                                        nextHandle := st1.nextHandle + 1 }
        if env.bindOk = false then
          (Except.error MMError.bindBufferMemoryFailed,
           { st2 with liveBufferHandles := st2.liveBufferHandles - 1,
                      liveMemoryHandles := st2.liveMemoryHandles - 1 })
        else
          let bi : BufferInfo :=
            { buffer := bufHandle, memory := memHandle, size := size, offset := 0,
              mappedData := persistentMap &&
                (memoryProperties &&& VK_MEMORY_PROPERTY_HOST_VISIBLE_BIT != 0),
              persistentlyMapped := persistentMap }
          (Except.ok bi,
           { st2 with buffers := (name, bi) :: st2.buffers,
                      totalAllocatedMemory :=
                        u64add st2.totalAllocatedMemory env.allocationSize })

/-- `MemoryManager::createBuffer` (MemoryManager.cpp 47-59): converts the
semantic enums to Vulkan flags and delegates. -/
def createBuffer (env : VkEnv) (st : MMState) (name : String) (size : Nat)
    (usage : BufferUsage) (location : MemoryLocation) (persistentMap : Bool) :
    Except MMError BufferInfo × MMState :=
  createBufferExplicit env st name size (bufferUsageToVulkanFlags usage)
    (memoryLocationToVulkanFlags location) persistentMap

/-- The Vulkan calls issued while destroying a buffer, in issue order. -/
inductive DeviceEvent where
  | unmapMemory (memory : Nat)
  | destroyBuffer (buffer : Nat)
  | freeMemory (memory : Nat)
  deriving DecidableEq, BEq

/-- `MemoryManager::removeBuffer` (MemoryManager.cpp 299-323): unmaps if
mapped, destroys the buffer handle, frees the memory, subtracts the
buffer's requested size from the counter and erases the registry entry.
Returns the C++ `bool` result, the new state, and the device calls in
order. -/
def removeBuffer (st : MMState) (name : String) : Bool × MMState × List DeviceEvent :=
  match List.lookup name st.buffers with
  | none => (false, st, [])
  | some b =>
    (true,
     { st with buffers := st.buffers.eraseP (fun p => p.1 == name),
               totalAllocatedMemory := u64sub st.totalAllocatedMemory b.size,
               liveBufferHandles := st.liveBufferHandles - 1,
               liveMemoryHandles := st.liveMemoryHandles - 1 },
     (if b.mappedData then [DeviceEvent.unmapMemory b.memory] else []) ++
       [DeviceEvent.destroyBuffer b.buffer, DeviceEvent.freeMemory b.memory])

/-- The per-buffer destruction loop of `clearBuffers` (MemoryManager.cpp
326-337), emitting the device calls in order. -/
def clearLoop : List (String × BufferInfo) → List DeviceEvent
  | [] => []
  | (_, b) :: rest =>
    ((if b.mappedData then [DeviceEvent.unmapMemory b.memory] else []) ++
      [DeviceEvent.destroyBuffer b.buffer, DeviceEvent.freeMemory b.memory]) ++
      clearLoop rest

/-- `MemoryManager::clearBuffers` (MemoryManager.cpp 325-341): destroys every
registered buffer, empties the registry and resets the counter to zero. -/
def clearBuffers (st : MMState) : MMState × List DeviceEvent :=
  ({ st with buffers := [],
             totalAllocatedMemory := 0,
             liveBufferHandles := st.liveBufferHandles - st.buffers.length,
             liveMemoryHandles := st.liveMemoryHandles - st.buffers.length },
   clearLoop st.buffers)

end FractalGen

namespace FractalGen

/-- Arithmetic helper: adding then subtracting in `uint64_t` without
overflow. -/
theorem u64sub_u64add_of_le (t a s : Nat) (h1 : t + a < 2 ^ 64) (h2 : s ≤ a) :
    u64sub (u64add t a) s = t + (a - s) := by
  have hp : (2 : Nat) ^ 64 = 18446744073709551616 := by norm_num
  unfold u64add u64sub
  rw [hp] at h1 ⊢
  omega

/-- Inversion of a successful `createBufferExplicit` call: the returned
buffer has the requested size, the registry gains exactly the new entry, and
the counter grows by the allocator-reported allocation size. -/
theorem createBufferExplicit_ok (env : VkEnv) (st : MMState) (name : String) (size : Nat)
    (uf props : Nat) (pm : Bool) (bi : BufferInfo) (st1 : MMState)
    (h : createBufferExplicit env st name size uf props pm = (Except.ok bi, st1)) :
    bi.size = size ∧
    st1.buffers = (name, bi) :: st.buffers ∧
    st1.totalAllocatedMemory = u64add st.totalAllocatedMemory env.allocationSize := by
  rw [createBufferExplicit] at h
  split at h
  · simp at h
  · split at h
    · simp at h
    · split at h
      · simp at h
      · split at h
        · simp at h
        · split at h
          · simp at h
          · rw [Prod.mk.injEq, Except.ok.injEq] at h
            obtain ⟨hbi, hst⟩ := h
            subst hst
            subst hbi
            refine ⟨rfl, rfl, rfl⟩

/-- The destruction loop of `clearBuffers` emits, per registered buffer in
registry order, the optional unmap followed by destroy-buffer followed by
free-memory. -/
theorem clearLoop_eq_flatMap (l : List (String × BufferInfo)) :
    clearLoop l = l.flatMap (fun p =>
      (if p.2.mappedData then [DeviceEvent.unmapMemory p.2.memory] else []) ++
      [DeviceEvent.destroyBuffer p.2.buffer, DeviceEvent.freeMemory p.2.memory]) := by
  induction l with
  | nil => rfl
  | cons hd tl ih =>
    cases hd with
    | mk n b => simp [clearLoop, ih]

/-- A sample registered buffer used by concrete instantiations. -/
def sampleBuffer : BufferInfo :=
  { buffer := 1, memory := 2, size := 64, offset := 0,
    mappedData := true, persistentlyMapped := true }

/-- A sample `MemoryManager` state with one registered, mapped buffer. -/
def sampleState : MMState :=
  { buffers := [("fractalOutput", sampleBuffer)], totalAllocatedMemory := 64,
    liveBufferHandles := 1, liveMemoryHandles := 1, nextHandle := 3 }

/-- The empty `MemoryManager` state right after construction. -/
def emptyMMState : MMState :=
  { buffers := [], totalAllocatedMemory := 0,
    liveBufferHandles := 0, liveMemoryHandles := 0, nextHandle := 1 }

/-- A device environment whose memory-type table offers only device-local
memory, so that a host-visible request makes `findMemoryType` fail after
`vkCreateBuffer` has already succeeded. -/
def leakEnv : VkEnv :=
  { createBufferOk := true, memoryTypeBits := 1, allocationSize := 1024,
    allocOk := true, bindOk := true,
    memoryTypes := [VK_MEMORY_PROPERTY_DEVICE_LOCAL_BIT] }

/-- Claim C4 evidence: when `vkCreateBuffer` succeeds and `findMemoryType`
then fails (memory-type selection stage), the call fails with the
no-suitable-memory-type error and leaves the registry and counter unchanged,
but the `VkBuffer` created for this call is never destroyed: one more buffer
handle is live after the call than before, a resource leak on this failure
path. -/
theorem C4_buffer_leak_on_memory_type_failure :
    (createBufferExplicit leakEnv emptyMMState "fractalOutput" 1024
        VK_BUFFER_USAGE_STORAGE_BUFFER_BIT VK_MEMORY_PROPERTY_HOST_VISIBLE_BIT
        false).1 = Except.error MMError.noSuitableMemoryType ∧
    (createBufferExplicit leakEnv emptyMMState "fractalOutput" 1024
        VK_BUFFER_USAGE_STORAGE_BUFFER_BIT VK_MEMORY_PROPERTY_HOST_VISIBLE_BIT
        false).2.liveBufferHandles = emptyMMState.liveBufferHandles + 1 ∧
    (createBufferExplicit leakEnv emptyMMState "fractalOutput" 1024
        VK_BUFFER_USAGE_STORAGE_BUFFER_BIT VK_MEMORY_PROPERTY_HOST_VISIBLE_BIT
        false).2.buffers = emptyMMState.buffers ∧
    (createBufferExplicit leakEnv emptyMMState "fractalOutput" 1024
        VK_BUFFER_USAGE_STORAGE_BUFFER_BIT VK_MEMORY_PROPERTY_HOST_VISIBLE_BIT
        false).2.totalAllocatedMemory = emptyMMState.totalAllocatedMemory :=
  ⟨rfl, rfl, rfl, rfl⟩

/-- Claim C6: a second `createBuffer` call with a name already registered
fails with the duplicate-name error regardless of the requested size, usage
kind or memory location, and leaves the entire state (registry, first
buffer's entry, counter) unchanged. -/
theorem C6_duplicate_name_rejected (env : VkEnv) (st : MMState) (name : String)
    (size : Nat) (usage : BufferUsage) (location : MemoryLocation) (pm : Bool)
    (b : BufferInfo) (h : List.lookup name st.buffers = some b) :
    createBuffer env st name size usage location pm =
      (Except.error (MMError.duplicateName name), st) := by
  rw [createBuffer, createBufferExplicit]
  have hs : (getBuffer st name).isSome = true := by rw [getBuffer, h]; rfl
  rw [if_pos hs]

/-- Witness for C6: re-creating `"fractalOutput"` on a state that already
holds it fails and changes nothing. -/
theorem C6_witness :
    createBuffer leakEnv sampleState "fractalOutput" 256
        BufferUsage.storageBuffer MemoryLocation.gpuOnly false =
      (Except.error (MMError.duplicateName "fractalOutput"), sampleState) :=
  C6_duplicate_name_rejected leakEnv sampleState "fractalOutput" 256
    BufferUsage.storageBuffer MemoryLocation.gpuOnly false sampleBuffer
    (by simp [sampleState])

/-- Claim C8 fails as stated on the free-before-destroy ordering: removing
the sample mapped buffer issues unmap, then `vkDestroyBuffer`, then
`vkFreeMemory`, so the backing memory is freed after (not before) the buffer
handle is destroyed. -/
theorem C8_counterexample :
    (removeBuffer sampleState "fractalOutput").2.2 =
      [DeviceEvent.unmapMemory 2, DeviceEvent.destroyBuffer 1,
        DeviceEvent.freeMemory 2] ∧
    ¬ List.findIdx (fun e => e == DeviceEvent.freeMemory 2)
        ((removeBuffer sampleState "fractalOutput").2.2) <
      List.findIdx (fun e => e == DeviceEvent.destroyBuffer 1)
        ((removeBuffer sampleState "fractalOutput").2.2) := by
  have h1 : (removeBuffer sampleState "fractalOutput").2.2 =
      [DeviceEvent.unmapMemory 2, DeviceEvent.destroyBuffer 1,
        DeviceEvent.freeMemory 2] := by
    simp [removeBuffer, sampleState, sampleBuffer]
  refine ⟨h1, ?_⟩
  rw [h1]
  decide

/-- Claim C8 amended: `removeBuffer` and `clearBuffers` destroy each buffer
with the host mapping unmapped first and the buffer handle destroyed before
the backing memory is freed; `removeBuffer` subtracts the removed buffer's
requested size from the total-allocated-bytes counter, and `clearBuffers`
resets the counter to zero. -/
theorem C8_destroy_order_and_counter :
    (∀ st name b, List.lookup name st.buffers = some b →
      (removeBuffer st name).1 = true ∧
      (b.mappedData = true →
        ((removeBuffer st name).2.2).head? =
          some (DeviceEvent.unmapMemory b.memory)) ∧
      (∃ i j : Nat, i < j ∧
        ((removeBuffer st name).2.2)[i]? =
          some (DeviceEvent.destroyBuffer b.buffer) ∧
        ((removeBuffer st name).2.2)[j]? =
          some (DeviceEvent.freeMemory b.memory)) ∧
      ((removeBuffer st name).2.1).totalAllocatedMemory =
        u64sub st.totalAllocatedMemory b.size) ∧
    (∀ st, (clearBuffers st).1.buffers = [] ∧
      (clearBuffers st).1.totalAllocatedMemory = 0 ∧
      (clearBuffers st).2 = st.buffers.flatMap (fun p =>
        (if p.2.mappedData then [DeviceEvent.unmapMemory p.2.memory] else []) ++
        [DeviceEvent.destroyBuffer p.2.buffer,
          DeviceEvent.freeMemory p.2.memory])) := by
  constructor
  · intro st name b h
    refine ⟨by simp [removeBuffer, h], ?_, ?_, by simp [removeBuffer, h]⟩
    · intro hmd
      simp [removeBuffer, h, hmd]
    · cases hmd : b.mappedData
      · exact ⟨0, 1, by omega, by simp [removeBuffer, h, hmd],
          by simp [removeBuffer, h, hmd]⟩
      · exact ⟨1, 2, by omega, by simp [removeBuffer, h, hmd],
          by simp [removeBuffer, h, hmd]⟩
  · intro st
    exact ⟨rfl, rfl, clearLoop_eq_flatMap st.buffers⟩

/-- Witness for C8 (amended): the sample mapped buffer is removed with the
unmap first, destroy at index 1, free at index 2, and the counter drops by
its size. -/
theorem C8_witness :
    (removeBuffer sampleState "fractalOutput").1 = true ∧
    (sampleBuffer.mappedData = true →
      ((removeBuffer sampleState "fractalOutput").2.2).head? =
        some (DeviceEvent.unmapMemory sampleBuffer.memory)) ∧
    (∃ i j : Nat, i < j ∧
      ((removeBuffer sampleState "fractalOutput").2.2)[i]? =
        some (DeviceEvent.destroyBuffer sampleBuffer.buffer) ∧
      ((removeBuffer sampleState "fractalOutput").2.2)[j]? =
        some (DeviceEvent.freeMemory sampleBuffer.memory)) ∧
    ((removeBuffer sampleState "fractalOutput").2.1).totalAllocatedMemory =
      u64sub sampleState.totalAllocatedMemory sampleBuffer.size :=
  C8_destroy_order_and_counter.1 sampleState "fractalOutput" sampleBuffer
    (by simp [sampleState])

end FractalGen

namespace FractalGen

/-- Claim C10: the total-allocated-bytes counter is updated asymmetrically:
a successful creation adds the allocator-reported allocation size, a removal
subtracts only the removed buffer's requested size, and clearing resets the
counter to zero; hence creating and then removing a buffer whose reported
allocation size strictly exceeds its requested size leaves the counter
strictly above its prior value. -/
theorem C10_counter_update_asymmetry :
    (∀ env st name size uf props pm bi st1,
      createBufferExplicit env st name size uf props pm = (Except.ok bi, st1) →
      st1.totalAllocatedMemory =
        u64add st.totalAllocatedMemory env.allocationSize) ∧
    (∀ st name b, List.lookup name st.buffers = some b →
      ((removeBuffer st name).2.1).totalAllocatedMemory =
        u64sub st.totalAllocatedMemory b.size) ∧
    (∀ st, (clearBuffers st).1.totalAllocatedMemory = 0) ∧
    (∀ env st name size uf props pm bi st1,
      createBufferExplicit env st name size uf props pm = (Except.ok bi, st1) →
      size < env.allocationSize →
      st.totalAllocatedMemory + env.allocationSize < 2 ^ 64 →
      ((removeBuffer st1 name).2.1).totalAllocatedMemory =
        st.totalAllocatedMemory + (env.allocationSize - size) ∧
      ((removeBuffer st1 name).2.1).totalAllocatedMemory ≠
        st.totalAllocatedMemory) := by
  refine ⟨?_, ?_, ?_, ?_⟩
  · intro env st name size uf props pm bi st1 h
    exact (createBufferExplicit_ok env st name size uf props pm bi st1 h).2.2
  · intro st name b h
    simp [removeBuffer, h]
  · intro st
    rfl
  · intro env st name size uf props pm bi st1 h hlt hbound
    obtain ⟨hsz, hbufs, htot⟩ :=
      createBufferExplicit_ok env st name size uf props pm bi st1 h
    have hlook : List.lookup name st1.buffers = some bi := by
      rw [hbufs]
      exact List.lookup_cons_self
    have hrm : ((removeBuffer st1 name).2.1).totalAllocatedMemory =
        u64sub st1.totalAllocatedMemory bi.size := by
      simp [removeBuffer, hlook]
    rw [hrm, htot, hsz,
      u64sub_u64add_of_le _ _ _ hbound (le_of_lt hlt)]
    exact ⟨rfl, by omega⟩

/-- Witness for C10: on the empty state, creating a 1024-byte buffer whose
allocator reports 1280 bytes and then removing it leaves the counter at 256,
not at its prior value 0. -/
theorem C10_witness :
    ((removeBuffer
        { buffers := [("fractalOutput",
            { buffer := 1, memory := 2, size := 1024, offset := 0,
              mappedData := false, persistentlyMapped := false })],
          totalAllocatedMemory := 1280, liveBufferHandles := 1,
          liveMemoryHandles := 1, nextHandle := 3 }
        "fractalOutput").2.1).totalAllocatedMemory =
      emptyMMState.totalAllocatedMemory + (1280 - 1024) ∧
    ((removeBuffer
        { buffers := [("fractalOutput",
            { buffer := 1, memory := 2, size := 1024, offset := 0,
              mappedData := false, persistentlyMapped := false })],
          totalAllocatedMemory := 1280, liveBufferHandles := 1,
          liveMemoryHandles := 1, nextHandle := 3 }
        "fractalOutput").2.1).totalAllocatedMemory ≠
      emptyMMState.totalAllocatedMemory :=
  C10_counter_update_asymmetry.2.2.2
    { createBufferOk := true, memoryTypeBits := 1, allocationSize := 1280,
      allocOk := true, bindOk := true,
      memoryTypes := [VK_MEMORY_PROPERTY_HOST_VISIBLE_BIT] }
    emptyMMState "fractalOutput" 1024 VK_BUFFER_USAGE_STORAGE_BUFFER_BIT
    VK_MEMORY_PROPERTY_HOST_VISIBLE_BIT false
    { buffer := 1, memory := 2, size := 1024, offset := 0,
      mappedData := false, persistentlyMapped := false }
    { buffers := [("fractalOutput",
        { buffer := 1, memory := 2, size := 1024, offset := 0,
          mappedData := false, persistentlyMapped := false })],
      totalAllocatedMemory := 1280, liveBufferHandles := 1,
      liveMemoryHandles := 1, nextHandle := 3 }
    (by rfl) (by norm_num) (by norm_num [emptyMMState])

end FractalGen

namespace FractalGen

/-! ## uploadBufferData / downloadBufferData (MemoryManager.cpp 154-259)

The byte contents of a buffer's backing memory are modelled as a list of
bytes.  `hostVisible` and `hostCoherent` are the host-visibility and
host-coherence bits of the memory-property flags that `uploadBufferData`
computes for the buffer (the flags of the first memory type admitted by the
buffer's `memoryTypeBits`); `vkMapMemory` succeeds exactly on host-visible
memory.  Each operation also reports the Vulkan transfer calls it issues, so
that the presence or absence of a staging transfer is observable. -/

/-- A buffer as seen by the upload/download paths. -/
structure HostBuffer where
  size : Nat
  hostVisible : Bool
  hostCoherent : Bool
  contents : List Nat
  deriving DecidableEq, BEq

/-- `memcpy` of `data` into the mapped range starting at `offset`. -/
def writeBytes (store : List Nat) (offset : Nat) (data : List Nat) : List Nat :=
  store.take offset ++ data ++ store.drop (offset + data.length)

/-- The transfer-related Vulkan calls issued by upload/download. -/
inductive XferEvent where
  | mapMemory
  | memcpyToDevice
  | flushMappedRange
  | unmapMemory
  | createStagingBuffer (size : Nat)
  | memcpyFromDevice
  | copyBufferToBuffer (size : Nat)
  deriving DecidableEq, BEq

/-- `MemoryManager::uploadBufferData` (MemoryManager.cpp 154-235): bounds
check; host-visible memory takes the direct map-copy-(flush)-unmap path;
otherwise a staging buffer is created, filled, and copied device-side
(requiring a command pool and queue). -/
def uploadBufferData (b : HostBuffer) (data : List Nat) (offset : Nat)
    (commandPoolValid queueValid : Bool) :
    Except String HostBuffer × List XferEvent :=
  if u64add offset data.length > b.size then
    (Except.error "Upload data exceeds buffer size", [])
  else if b.hostVisible then
    (Except.ok { b with contents := writeBytes b.contents offset data },
     [XferEvent.mapMemory, XferEvent.memcpyToDevice] ++
       (if b.hostCoherent then [] else [XferEvent.flushMappedRange]) ++
       [XferEvent.unmapMemory])
  else if commandPoolValid = false ∨ queueValid = false then
    (Except.error "Command pool and queue required for staging buffer upload", [])
  else
    (Except.ok { b with contents := writeBytes b.contents offset data },
     [XferEvent.createStagingBuffer data.length, XferEvent.mapMemory,
      XferEvent.memcpyToDevice, XferEvent.unmapMemory,
      XferEvent.copyBufferToBuffer data.length])

/-- `MemoryManager::downloadBufferData` (MemoryManager.cpp 237-259): bounds
check, then map-copy-unmap; the map fails on memory that is not
host-visible, and no staging fallback exists. -/
def downloadBufferData (b : HostBuffer) (size offset : Nat) :
    Except String (List Nat) × List XferEvent :=
  if u64add offset size > b.size then
    (Except.error "Download size exceeds buffer size", [])
  else if b.hostVisible = false then
    (Except.error
      "Failed to map buffer memory for download (buffer may not be host-visible)",
     [])
  else
    (Except.ok ((b.contents.drop offset).take size),
     [XferEvent.mapMemory, XferEvent.memcpyFromDevice, XferEvent.unmapMemory])

/-- Reading back a just-written range returns exactly the written bytes. -/
theorem writeBytes_roundtrip (l : List Nat) (o : Nat) (d : List Nat)
    (h : o + d.length ≤ l.length) :
    ((writeBytes l o d).drop o).take d.length = d := by
  rw [writeBytes, List.append_assoc,
    List.drop_left' (by rw [List.length_take]; omega),
    List.take_left' rfl]

/-- Writing inside the buffer preserves its length. -/
theorem writeBytes_length (l : List Nat) (o : Nat) (d : List Nat)
    (h : o + d.length ≤ l.length) :
    (writeBytes l o d).length = l.length := by
  rw [writeBytes]
  simp
  omega

/-- Claim C5: uploading any byte sequence to a host-visible buffer whose
registered size admits it and downloading the same number of bytes from the
same offset returns exactly the uploaded sequence. -/
theorem C5_upload_download_roundtrip (b : HostBuffer) (data : List Nat)
    (offset : Nat) (commandPoolValid queueValid : Bool)
    (hlen : b.contents.length = b.size) (hsz : b.size < 2 ^ 64)
    (hfit : offset + data.length ≤ b.size) (hvis : b.hostVisible = true) :
    ∃ b2, (uploadBufferData b data offset commandPoolValid queueValid).1 =
        Except.ok b2 ∧
      (downloadBufferData b2 data.length offset).1 = Except.ok data := by
  have hadd : u64add offset data.length = offset + data.length := by
    unfold u64add
    have : offset + data.length < 2 ^ 64 := by omega
    omega
  refine ⟨{ b with contents := writeBytes b.contents offset data }, ?_, ?_⟩
  · rw [uploadBufferData, if_neg (by omega), if_pos hvis]
  · rw [downloadBufferData]
    rw [if_neg (by simp only [hadd]; omega)]
    rw [if_neg (by simp [hvis])]
    rw [writeBytes_roundtrip b.contents offset data (by omega)]

/-- Witness for C5: a 31-byte payload round-trips through a 32-byte
host-visible buffer. -/
theorem C5_witness :
    ∃ b2, (uploadBufferData
        { size := 32, hostVisible := true, hostCoherent := true,
          contents := List.replicate 32 0 }
        (List.replicate 31 7) 0 false false).1 = Except.ok b2 ∧
      (downloadBufferData b2 (List.replicate 31 7).length 0).1 =
        Except.ok (List.replicate 31 7) :=
  C5_upload_download_roundtrip
    { size := 32, hostVisible := true, hostCoherent := true,
      contents := List.replicate 32 0 }
    (List.replicate 31 7) 0 false false (by simp) (by norm_num) (by simp) rfl

/-- Claim C7: `downloadBufferData` requires host-visible memory: on a buffer
whose memory lacks host visibility the call fails with the cannot-map error
and issues no staging transfer; on a host-visible buffer it maps, copies the
requested range out, and unmaps. -/
theorem C7_download_requires_host_visible (b : HostBuffer) (size offset : Nat)
    (hfit : ¬ u64add offset size > b.size) :
    (b.hostVisible = false →
      (downloadBufferData b size offset).1 =
        Except.error
          "Failed to map buffer memory for download (buffer may not be host-visible)" ∧
      ∀ n, XferEvent.createStagingBuffer n ∉ (downloadBufferData b size offset).2 ∧
        XferEvent.copyBufferToBuffer n ∉ (downloadBufferData b size offset).2) ∧
    (b.hostVisible = true →
      (downloadBufferData b size offset).1 =
        Except.ok ((b.contents.drop offset).take size) ∧
      (downloadBufferData b size offset).2 =
        [XferEvent.mapMemory, XferEvent.memcpyFromDevice,
          XferEvent.unmapMemory]) := by
  constructor
  · intro hv
    rw [downloadBufferData, if_neg hfit, if_pos hv]
    exact ⟨rfl, fun n => ⟨by simp, by simp⟩⟩
  · intro hv
    rw [downloadBufferData, if_neg hfit, if_neg (by simp [hv])]
    exact ⟨rfl, rfl⟩

/-- Witness for C7: downloading 4 bytes from a device-local (not
host-visible) 8-byte buffer fails with the cannot-map error and issues no
staging transfer. -/
theorem C7_witness :
    (downloadBufferData
        { size := 8, hostVisible := false, hostCoherent := false,
          contents := List.replicate 8 0 } 4 0).1 =
      Except.error
        "Failed to map buffer memory for download (buffer may not be host-visible)" ∧
    ∀ n, XferEvent.createStagingBuffer n ∉
        (downloadBufferData
          { size := 8, hostVisible := false, hostCoherent := false,
            contents := List.replicate 8 0 } 4 0).2 ∧
      XferEvent.copyBufferToBuffer n ∉
        (downloadBufferData
          { size := 8, hostVisible := false, hostCoherent := false,
            contents := List.replicate 8 0 } 4 0).2 :=
  (C7_download_requires_host_visible
    { size := 8, hostVisible := false, hostCoherent := false,
      contents := List.replicate 8 0 } 4 0 (by decide)).1 rfl

end FractalGen
